import Mathlib

/-!
Shallow embedding of the Zec_namada shielded-airdrop wallet
(`src/lib.rs`, `src/wallet.rs`) and proofs about its claims.

Bytes are modelled as `Nat` values (each `< 256` by construction),
fixed-size byte arrays such as Rust `[u8; 32]` as `List Nat`, and
`u64` arithmetic as `Nat` with explicit `% 2^64` where overflow matters.
Fallible Rust functions returning `Result<T, ProtocolError>` are modelled
as `Except String T`.
-/

set_option maxRecDepth 8000

namespace ZecNamada

/-- Decidable equality for `Except`, so concrete runs of the embedded
fallible functions can be checked by `decide`. -/
instance {e a : Type} [DecidableEq e] [DecidableEq a] :
    DecidableEq (Except e a)
  | .ok x, .ok y =>
    if h : x = y then .isTrue (by rw [h])
    else .isFalse (fun hc => h (Except.ok.inj hc))
  | .ok _, .error _ => .isFalse (fun hc => Except.noConfusion hc)
  | .error _, .ok _ => .isFalse (fun hc => Except.noConfusion hc)
  | .error x, .error y =>
    if h : x = y then .isTrue (by rw [h])
    else .isFalse (fun hc => h (Except.error.inj hc))

/-- Little-endian byte decomposition: `n` bytes of `x` (Rust `to_le_bytes`). -/
def toBytesLE : Nat → Nat → List Nat
  | 0, _ => []
  | n + 1, x => (x % 256) :: toBytesLE n (x / 256)

/-! ### BLAKE2s (RFC 7693), as used by the `blake2s_simd` crate

`blake2s256 personal msg` is BLAKE2s with 32-byte digest, no key, and an
8-byte personalization (all-zero personalization = default parameters). -/

/-- 32-bit modular addition. -/
def add32 (a b : Nat) : Nat := (a + b) % 4294967296

/-- 32-bit right rotation (input assumed `< 2^32`). -/
def rotr32 (x r : Nat) : Nat := x / 2 ^ r + x % 2 ^ r * 2 ^ (32 - r)

/-- BLAKE2s initialization vector. -/
def blakeIV : List Nat :=
  [0x6A09E667, 0xBB67AE85, 0x3C6EF372, 0xA54FF53A,
   0x510E527F, 0x9B05688C, 0x1F83D9AB, 0x5BE0CD19]

/-- BLAKE2s message-schedule permutations (σ table). -/
def blakeSigma : List (List Nat) :=
  [[0, 1, 2, 3, 4, 5, 6, 7, 8, 9, 10, 11, 12, 13, 14, 15],
   [14, 10, 4, 8, 9, 15, 13, 6, 1, 12, 0, 2, 11, 7, 5, 3],
   [11, 8, 12, 0, 5, 2, 15, 13, 10, 14, 3, 6, 7, 1, 9, 4],
   [7, 9, 3, 1, 13, 12, 11, 14, 2, 6, 5, 10, 4, 0, 15, 8],
   [9, 0, 5, 7, 2, 4, 10, 15, 14, 1, 11, 12, 6, 8, 3, 13],
   [2, 12, 6, 10, 0, 11, 8, 3, 4, 13, 7, 5, 15, 14, 1, 9],
   [12, 5, 1, 15, 14, 13, 4, 10, 0, 7, 6, 3, 9, 2, 8, 11],
   [13, 11, 7, 14, 12, 1, 3, 9, 5, 0, 15, 4, 8, 6, 2, 10],
   [6, 15, 14, 9, 11, 3, 0, 8, 12, 2, 13, 7, 1, 4, 10, 5],
   [10, 2, 8, 4, 7, 6, 1, 5, 15, 11, 9, 14, 3, 12, 13, 0]]

/-- The BLAKE2 `G` mixing function acting on working-vector indices
`a b c d` with message words `x y`. -/
def blakeG (v : List Nat) (a b c d x y : Nat) : List Nat :=
  let va1 := add32 (add32 (v.getD a 0) (v.getD b 0)) x
  let vd1 := rotr32 (Nat.xor (v.getD d 0) va1) 16
  let vc1 := add32 (v.getD c 0) vd1
  let vb1 := rotr32 (Nat.xor (v.getD b 0) vc1) 12
  let va2 := add32 (add32 va1 vb1) y
  let vd2 := rotr32 (Nat.xor vd1 va2) 8
  let vc2 := add32 vc1 vd2
  let vb2 := rotr32 (Nat.xor vb1 vc2) 7
  ((((v.set a va2).set b vb2).set c vc2).set d vd2)

/-- One BLAKE2s round: eight `G` applications under permutation `s`. -/
def blakeRound (m : List Nat) (v : List Nat) (s : List Nat) : List Nat :=
  let mw := fun i => m.getD (s.getD i 0) 0
  let v1 := blakeG v 0 4 8 12 (mw 0) (mw 1)
  let v2 := blakeG v1 1 5 9 13 (mw 2) (mw 3)
  let v3 := blakeG v2 2 6 10 14 (mw 4) (mw 5)
  let v4 := blakeG v3 3 7 11 15 (mw 6) (mw 7)
  let v5 := blakeG v4 0 5 10 15 (mw 8) (mw 9)
  let v6 := blakeG v5 1 6 11 12 (mw 10) (mw 11)
  let v7 := blakeG v6 2 7 8 13 (mw 12) (mw 13)
  blakeG v7 3 4 9 14 (mw 14) (mw 15)

/-- Read the 32-bit little-endian word at byte offset `i` of `l`. -/
def wordAtLE (l : List Nat) (i : Nat) : Nat :=
  l.getD i 0 + 256 * l.getD (i + 1) 0 + 65536 * l.getD (i + 2) 0 +
    16777216 * l.getD (i + 3) 0

/-- BLAKE2s compression function: state `h` (8 words), one 64-byte block,
byte counter `t`, final-block flag `f`. -/
def blakeCompress (h : List Nat) (block : List Nat) (t : Nat) (f : Bool) :
    List Nat :=
  let m := (List.range 16).map (fun i => wordAtLE block (4 * i))
  let v :=
    [h.getD 0 0, h.getD 1 0, h.getD 2 0, h.getD 3 0,
     h.getD 4 0, h.getD 5 0, h.getD 6 0, h.getD 7 0,
     blakeIV.getD 0 0, blakeIV.getD 1 0, blakeIV.getD 2 0, blakeIV.getD 3 0,
     Nat.xor (blakeIV.getD 4 0) (t % 4294967296),
     Nat.xor (blakeIV.getD 5 0) (t / 4294967296 % 4294967296),
     if f then Nat.xor (blakeIV.getD 6 0) 4294967295 else blakeIV.getD 6 0,
     blakeIV.getD 7 0]
  let v' := blakeSigma.foldl (blakeRound m) v
  [Nat.xor (h.getD 0 0) (Nat.xor (v'.getD 0 0) (v'.getD 8 0)),
   Nat.xor (h.getD 1 0) (Nat.xor (v'.getD 1 0) (v'.getD 9 0)),
   Nat.xor (h.getD 2 0) (Nat.xor (v'.getD 2 0) (v'.getD 10 0)),
   Nat.xor (h.getD 3 0) (Nat.xor (v'.getD 3 0) (v'.getD 11 0)),
   Nat.xor (h.getD 4 0) (Nat.xor (v'.getD 4 0) (v'.getD 12 0)),
   Nat.xor (h.getD 5 0) (Nat.xor (v'.getD 5 0) (v'.getD 13 0)),
   Nat.xor (h.getD 6 0) (Nat.xor (v'.getD 6 0) (v'.getD 14 0)),
   Nat.xor (h.getD 7 0) (Nat.xor (v'.getD 7 0) (v'.getD 15 0))]

/-- Split a message into zero-padded 64-byte blocks (empty list for the
empty message; the caller compresses one zero block in that case). -/
def toBlocks (msg : List Nat) : List (List Nat) :=
  if h : msg.length ≤ 64 then
    [msg ++ List.replicate (64 - msg.length) 0]
  else
    msg.take 64 :: toBlocks (msg.drop 64)
termination_by msg.length
decreasing_by
  simp only [List.length_drop]
  omega

/-- Run the compression function over the blocks of a message of total
length `total`, with `done` bytes already consumed. -/
def blakeProcess (h : List Nat) (done total : Nat) :
    List (List Nat) → List Nat
  | [] => h
  | [b] => blakeCompress h b total true
  | b :: b2 :: rest =>
      blakeProcess (blakeCompress h b (done + 64) false) (done + 64) total
        (b2 :: rest)

/-- BLAKE2s-256 with an 8-byte personalization (zeros = default), no key. -/
def blake2s256 (personal : List Nat) (msg : List Nat) : List Nat :=
  let p6 := wordAtLE personal 0
  let p7 := wordAtLE personal 4
  let h0 :=
    [Nat.xor (blakeIV.getD 0 0) 0x01010020,
     blakeIV.getD 1 0, blakeIV.getD 2 0, blakeIV.getD 3 0,
     blakeIV.getD 4 0, blakeIV.getD 5 0,
     Nat.xor (blakeIV.getD 6 0) p6,
     Nat.xor (blakeIV.getD 7 0) p7]
  let hf := blakeProcess h0 0 msg.length (toBlocks msg)
  ((hf.map (toBytesLE 4)).flatten).take 32

/-- The personalization string `"MASP_alt"` used for the Sapling airdrop
nullifier (`b"MASP_alt"` in `derive_sapling_airdrop_nullifier`). -/
def maspAltPersonal : List Nat := [77, 65, 83, 80, 95, 97, 108, 116]

/-- All-zero personalization: `blake2s_simd::Params::new()` defaults. -/
def zeroPersonal : List Nat := [0, 0, 0, 0, 0, 0, 0, 0]

/-! ### Core types (`src/lib.rs`) -/

/-- A 32-byte array of zeros, the placeholder used throughout the source. -/
def zeros32 : List Nat := List.replicate 32 0

/-- Rust `SaplingNote` (lib.rs). All 32-byte fields are byte lists. -/
structure SaplingNote where
  diversifier : List Nat
  value : Nat
  note_commitment : List Nat
  nullifier_key : List Nat
  randomness : List Nat
  position : Nat
deriving DecidableEq, Repr

/-- Rust `SaplingNote::value_commitment`: mock — value little-endian in the
first 8 bytes, rest zero. -/
def SaplingNote.value_commitment (n : SaplingNote) : List Nat :=
  toBytesLE 8 n.value ++ List.replicate 24 0

/-- Rust `SaplingNote::commitment`. -/
def SaplingNote.commitment (n : SaplingNote) : List Nat := n.note_commitment

/-- Rust `SaplingNote::nullifier`: mock — position little-endian in the first
8 bytes, rest zero. -/
def SaplingNote.nullifier (n : SaplingNote) : List Nat :=
  toBytesLE 8 n.position ++ List.replicate 24 0

/-- Rust `OrchardNote` (lib.rs). -/
structure OrchardNote where
  diversifier : List Nat
  value : Nat
  note_commitment : List Nat
  nullifier_key : List Nat
  randomness : List Nat
  position : Nat
  rho : List Nat
  psi : List Nat
deriving DecidableEq, Repr

/-- Rust `OrchardNote::value_commitment` (same mock as Sapling). -/
def OrchardNote.value_commitment (n : OrchardNote) : List Nat :=
  toBytesLE 8 n.value ++ List.replicate 24 0

/-- Rust `OrchardNote::commitment`. -/
def OrchardNote.commitment (n : OrchardNote) : List Nat := n.note_commitment

/-- Rust `OrchardNote::nullifier` (same mock as Sapling). -/
def OrchardNote.nullifier (n : OrchardNote) : List Nat :=
  toBytesLE 8 n.position ++ List.replicate 24 0

/-- Rust `NullifierSet`: a `HashSet<Nullifier>`, modelled as a duplicate-free
list of 32-byte values (insertion appends when absent). -/
structure NullifierSet where
  nullifiers : List (List Nat)
deriving DecidableEq, Repr

/-- Rust `NullifierSet::new`. -/
def NullifierSet.new : NullifierSet := ⟨[]⟩

/-- Rust `NullifierSet::contains`. -/
def NullifierSet.containsNf (s : NullifierSet) (n : List Nat) : Bool :=
  s.nullifiers.contains n

/-- Rust `NullifierSet::insert` (`HashSet::insert`: adds when absent). -/
def NullifierSet.insertNf (s : NullifierSet) (n : List Nat) : NullifierSet :=
  if s.nullifiers.contains n then s else ⟨s.nullifiers ++ [n]⟩

/-! ### Airdrop nullifier derivation (`AirdropNullifierDerivation`) -/

/-- Rust `AirdropNullifierDerivation::derive_sapling_airdrop_nullifier`:
BLAKE2s-256 with personalization `"MASP_alt"` over `nk || rho`. -/
def derive_sapling_airdrop_nullifier (nullifier_key rho : List Nat) :
    Except String (List Nat) :=
  .ok (blake2s256 maspAltPersonal (nullifier_key ++ rho))

/-- Rust `AirdropNullifierDerivation::derive_orchard_airdrop_nullifier`:
BLAKE2s-256 (default parameters) over `nk || rho || psi || cm`. -/
def derive_orchard_airdrop_nullifier
    (nullifier_key rho psi note_commitment : List Nat) :
    Except String (List Nat) :=
  .ok (blake2s256 zeroPersonal
    (nullifier_key ++ rho ++ psi ++ note_commitment))

/-! ### Statements and the mocked circuit prover -/

/-- Rust `ClaimStatementSapling`. -/
structure ClaimStatementSapling where
  sapling_root : List Nat
  value_commitment : List Nat
  airdrop_nullifier : List Nat
  randomized_key : List Nat
  nullifier_set : List (List Nat)
  proof : List Nat
deriving DecidableEq, Repr

/-- Rust `ClaimStatementOrchard`. -/
structure ClaimStatementOrchard where
  orchard_root : List Nat
  value_commitment : List Nat
  airdrop_nullifier : List Nat
  randomized_key : List Nat
  nullifier_set : List (List Nat)
  proof : List Nat
deriving DecidableEq, Repr

/-- Rust `EquivalenceStatement`. -/
structure EquivalenceStatement where
  sapling_value_commitment : List Nat
  orchard_value_commitment : List Nat
  proof : List Nat
deriving DecidableEq, Repr

/-- Rust `CircuitProver::verify_claim_sapling`: mock — proof length must be 192. -/
def verify_claim_sapling (claim : ClaimStatementSapling) :
    Except String Bool :=
  .ok (claim.proof.length == 192)

/-- Rust `CircuitProver::verify_claim_orchard`: mock — proof length must be 1024. -/
def verify_claim_orchard (claim : ClaimStatementOrchard) :
    Except String Bool :=
  .ok (claim.proof.length == 1024)

/-- Rust `CircuitProver::verify_equivalence`: mock — proof length must be 192. -/
def verify_equivalence (equiv : EquivalenceStatement) :
    Except String Bool :=
  .ok (equiv.proof.length == 192)

/-! ### Transaction structures -/

/-- Rust `ClaimDescription`. -/
inductive ClaimDescription where
  | sapling (c : ClaimStatementSapling)
  | orchard (c : ClaimStatementOrchard)
deriving DecidableEq, Repr

/-- Rust `MaspMintDescription`. -/
structure MaspMintDescription where
  masp_root : List Nat
  value_commitment : List Nat
  recipient : List Nat
  proof : List Nat
deriving DecidableEq, Repr

/-- Rust `ShieldedAirdropTransaction`. -/
structure ShieldedAirdropTransaction where
  claim_description : ClaimDescription
  masp_mint_description : MaspMintDescription
  equivalence_description : Option EquivalenceStatement
  binding_signature : List Nat
deriving DecidableEq, Repr

/-- Rust `ShieldedAirdropTransaction::create_sapling_to_masp_airdrop`. -/
def create_sapling_to_masp_airdrop (claiming_note : SaplingNote)
    (_merkle_path : List (List Nat)) (nullifier_set : NullifierSet)
    (_airdrop_amount : Nat) (masp_recipient : List Nat) :
    Except String ShieldedAirdropTransaction :=
  .ok
    { claim_description := .sapling
        { sapling_root := zeros32
          value_commitment := claiming_note.value_commitment
          airdrop_nullifier := claiming_note.nullifier
          randomized_key := zeros32
          nullifier_set := nullifier_set.nullifiers
          proof := List.replicate 192 0 }
      masp_mint_description :=
        { masp_root := zeros32
          value_commitment := zeros32
          recipient := masp_recipient
          proof := List.replicate 192 0 }
      equivalence_description := some
        { sapling_value_commitment := claiming_note.value_commitment
          orchard_value_commitment := zeros32
          proof := List.replicate 192 0 }
      binding_signature := List.replicate 64 0 }

/-- Rust `ShieldedAirdropTransaction::create_orchard_to_masp_airdrop`. -/
def create_orchard_to_masp_airdrop (claiming_note : OrchardNote)
    (_merkle_path : List (List Nat)) (nullifier_set : NullifierSet)
    (_airdrop_amount : Nat) (masp_recipient : List Nat) :
    Except String ShieldedAirdropTransaction :=
  .ok
    { claim_description := .orchard
        { orchard_root := zeros32
          value_commitment := claiming_note.value_commitment
          airdrop_nullifier := claiming_note.nullifier
          randomized_key := zeros32
          nullifier_set := nullifier_set.nullifiers
          proof := List.replicate 192 0 }
      masp_mint_description :=
        { masp_root := zeros32
          value_commitment := zeros32
          recipient := masp_recipient
          proof := List.replicate 192 0 }
      equivalence_description := some
        { sapling_value_commitment := zeros32
          orchard_value_commitment := claiming_note.value_commitment
          proof := List.replicate 192 0 }
      binding_signature := List.replicate 64 0 }

/-- Rust `ShieldedAirdropTransaction::validate`: verify the claim proof, check
the airdrop nullifier against the registry and — in the Orchard branch
only — check the equivalence statement. -/
def validate (tx : ShieldedAirdropTransaction)
    (airdrop_nullifier_set : NullifierSet) : Except String Bool :=
  match tx.claim_description with
  | .sapling claim =>
    match verify_claim_sapling claim with
    | .error e => .error e
    | .ok ok1 =>
      if !ok1 then .ok false
      else if airdrop_nullifier_set.containsNf claim.airdrop_nullifier then
        .ok false
      else .ok true
  | .orchard claim =>
    match verify_claim_orchard claim with
    | .error e => .error e
    | .ok ok1 =>
      if !ok1 then .ok false
      else if airdrop_nullifier_set.containsNf claim.airdrop_nullifier then
        .ok false
      else
        match tx.equivalence_description with
        | none => .ok true
        | some equiv =>
          match verify_equivalence equiv with
          | .error e => .error e
          | .ok ok2 =>
            if !ok2 then .ok false
            else if equiv.sapling_value_commitment ≠ claim.value_commitment
            then .ok false
            else .ok true

/-- Rust `ShieldedAirdropTransaction::get_airdrop_nullifier`. -/
def get_airdrop_nullifier (tx : ShieldedAirdropTransaction) : List Nat :=
  match tx.claim_description with
  | .sapling claim => claim.airdrop_nullifier
  | .orchard claim => claim.airdrop_nullifier

/-! ### Core wallet (`AirdropWallet` in lib.rs) -/

/-- The core `AirdropWallet` (lib.rs): note inventories and the two
nullifier registries. -/
structure CoreWallet where
  sapling_notes : List SaplingNote
  orchard_notes : List OrchardNote
  nullifier_set : NullifierSet
  airdrop_nullifier_set : NullifierSet
deriving DecidableEq, Repr

/-- Rust `AirdropWallet::new`. -/
def CoreWallet.new : CoreWallet :=
  ⟨[], [], NullifierSet.new, NullifierSet.new⟩

/-- Rust `AirdropWallet::add_sapling_note` (core). -/
def CoreWallet.add_sapling_note (w : CoreWallet) (note : SaplingNote) :
    CoreWallet :=
  { w with sapling_notes := w.sapling_notes ++ [note] }

/-- Rust `AirdropWallet::add_orchard_note` (core). -/
def CoreWallet.add_orchard_note (w : CoreWallet) (note : OrchardNote) :
    CoreWallet :=
  { w with orchard_notes := w.orchard_notes ++ [note] }

/-- Rust `AirdropWallet::find_eligible_notes`: filter both inventories by
`value >= min_value`. -/
def find_eligible_notes (w : CoreWallet) (min_value : Nat) :
    List SaplingNote × List OrchardNote :=
  (w.sapling_notes.filter (fun note => decide (min_value ≤ note.value)),
   w.orchard_notes.filter (fun note => decide (min_value ≤ note.value)))

/-- Truncate or zero-pad a recipient address to a 32-byte key
(the conversion inlined in `create_sapling_airdrop_tx`). -/
def recipientKeyOf (recipient_address : List Nat) : List Nat :=
  if 32 ≤ recipient_address.length then recipient_address.take 32
  else recipient_address ++ List.replicate (32 - recipient_address.length) 0

/-- Rust `AirdropWallet::create_sapling_airdrop_tx` (core). -/
def create_sapling_airdrop_tx (w : CoreWallet) (note_index : Nat)
    (airdrop_amount : Nat) (recipient_address : List Nat) :
    Except String ShieldedAirdropTransaction :=
  if h : note_index < w.sapling_notes.length then
    create_sapling_to_masp_airdrop (w.sapling_notes.get ⟨note_index, h⟩)
      (List.replicate 32 zeros32) w.nullifier_set airdrop_amount
      (recipientKeyOf recipient_address)
  else .error "Invalid note index"

/-- Rust `AirdropWallet::create_orchard_airdrop_tx` (core). -/
def create_orchard_airdrop_tx (w : CoreWallet) (note_index : Nat)
    (airdrop_amount : Nat) (recipient_address : List Nat) :
    Except String ShieldedAirdropTransaction :=
  if h : note_index < w.orchard_notes.length then
    create_orchard_to_masp_airdrop (w.orchard_notes.get ⟨note_index, h⟩)
      (List.replicate 32 zeros32) w.nullifier_set airdrop_amount
      (recipientKeyOf recipient_address)
  else .error "Invalid note index"

/-- Rust `AirdropWallet::process_airdrop_transaction`: validate, and on
acceptance insert the airdrop nullifier (the only mutation). -/
def process_airdrop_transaction (w : CoreWallet)
    (tx : ShieldedAirdropTransaction) :
    Except String (Bool × CoreWallet) :=
  match validate tx w.airdrop_nullifier_set with
  | .error e => .error e
  | .ok false => .ok (false, w)
  | .ok true =>
    .ok (true,
      { w with airdrop_nullifier_set :=
          w.airdrop_nullifier_set.insertNf (get_airdrop_nullifier tx) })

/-! ### Persistent wallet layer (`src/wallet.rs`)

The sled database is modelled as association lists keyed by note position
(the source keys records by `"{pool}_{position}"`, so the key is the
position within a pool's tree); `SystemTime::now()` is modelled by an
explicit `now : Nat` argument. -/

/-- Rust `WalletMetadata`. -/
structure WalletMetadata where
  name : String
  created_at : Nat
  last_sync : Nat
  network : String
  version : String
deriving DecidableEq, Repr

/-- Rust `SaplingNoteRecord`: a note plus wallet-local metadata. -/
structure SaplingNoteRecord where
  note : SaplingNote
  created_at : Nat
  is_spent : Bool
  last_used : Option Nat
deriving DecidableEq, Repr

/-- Rust `OrchardNoteRecord`. -/
structure OrchardNoteRecord where
  note : OrchardNote
  created_at : Nat
  is_spent : Bool
  last_used : Option Nat
deriving DecidableEq, Repr

/-- Insert-or-overwrite at a key, as `sled::Tree::insert` does. -/
def recordsInsert {α : Type} : List (Nat × α) → Nat → α → List (Nat × α)
  | [], k, v => [(k, v)]
  | p :: rest, k, v =>
    if p.1 = k then (k, v) :: rest else p :: recordsInsert rest k v

/-- Key lookup, as `sled::Tree::get` does. -/
def recordsLookup {α : Type} : List (Nat × α) → Nat → Option α
  | [], _ => none
  | p :: rest, k => if p.1 = k then some p.2 else recordsLookup rest k

/-- The wallet's sled trees that the claims exercise: the per-pool note
record collections. -/
structure WalletDB where
  sapling_records : List (Nat × SaplingNoteRecord)
  orchard_records : List (Nat × OrchardNoteRecord)
deriving DecidableEq, Repr

/-- Rust `AirdropWallet` (wallet.rs): database, in-memory core wallet and
metadata. -/
structure FullWallet where
  db : WalletDB
  core_wallet : CoreWallet
  metadata : WalletMetadata
deriving DecidableEq, Repr

/-- Rust `AirdropWallet::add_sapling_note` (wallet.rs): store a fresh
unspent record and add the note to the core wallet. -/
def FullWallet.add_sapling_note (w : FullWallet) (note : SaplingNote)
    (now : Nat) : FullWallet :=
  let recs := recordsInsert w.db.sapling_records note.position
    ⟨note, now, false, none⟩
  { w with
    db := { w.db with sapling_records := recs }
    core_wallet := w.core_wallet.add_sapling_note note }

/-- Rust `AirdropWallet::add_orchard_note` (wallet.rs). -/
def FullWallet.add_orchard_note (w : FullWallet) (note : OrchardNote)
    (now : Nat) : FullWallet :=
  let recs := recordsInsert w.db.orchard_records note.position
    ⟨note, now, false, none⟩
  { w with
    db := { w.db with orchard_records := recs }
    core_wallet := w.core_wallet.add_orchard_note note }

/-- Rust `AirdropWallet::get_balance`: per pool, accumulate the values of
records whose spent flag is false (`u64` addition, hence mod `2^64`). -/
def get_balance (w : FullWallet) : Nat × Nat :=
  (w.db.sapling_records.foldl
    (fun acc p =>
      if p.2.is_spent then acc else (acc + p.2.note.value) % 2 ^ 64) 0,
   w.db.orchard_records.foldl
    (fun acc p =>
      if p.2.is_spent then acc else (acc + p.2.note.value) % 2 ^ 64) 0)

/-- Rust `AirdropWallet::mark_note_as_spent`: flip the record's spent flag
and set `last_used`; error when the record (or the pool's tree) does not
hold the key. -/
def mark_note_as_spent (w : FullWallet) (note_type : String)
    (position : Nat) (now : Nat) : Except String FullWallet :=
  if note_type = "sapling" then
    match recordsLookup w.db.sapling_records position with
    | none => .error "Note not found"
    | some r =>
      let recs := recordsInsert w.db.sapling_records position
        { r with is_spent := true, last_used := some now }
      .ok { w with db := { w.db with sapling_records := recs } }
  else if note_type = "orchard" then
    match recordsLookup w.db.orchard_records position with
    | none => .error "Note not found"
    | some r =>
      let recs := recordsInsert w.db.orchard_records position
        { r with is_spent := true, last_used := some now }
      .ok { w with db := { w.db with orchard_records := recs } }
  else
    -- An unknown note type opens a tree that was never written, so the
    -- lookup fails before the type mismatch is reported.
    .error "Note not found"

/-- Rust `ExportData` (wallet.rs): the serialized wallet state. The
nullifier entries are raw byte vectors (`Vec<Vec<u8>>`), so a parsed
blob handed to the importer may carry entries that are not 32 bytes. -/
structure ExportData where
  metadata : WalletMetadata
  sapling_notes : List SaplingNote
  orchard_notes : List OrchardNote
  nullifier_set : List (List Nat)
  airdrop_nullifier_set : List (List Nat)
deriving DecidableEq, Repr

/-- Rust `AirdropWallet::export_data`: serialize metadata, both note
inventories and both nullifier sets. -/
def export_data (w : FullWallet) : ExportData :=
  ⟨w.metadata, w.core_wallet.sapling_notes, w.core_wallet.orchard_notes,
   w.core_wallet.nullifier_set.nullifiers,
   w.core_wallet.airdrop_nullifier_set.nullifiers⟩

/-- Outcome of `import_data`: normal return, error return (`Err`), or a
Rust panic (the `try_into().unwrap()` on a nullifier entry that is not
32 bytes). Each carries the wallet state observable at that point. -/
inductive ImportResult where
  | ok (w : FullWallet)
  | err (w : FullWallet) (msg : String)
  | panic (w : FullWallet)
deriving DecidableEq, Repr

/-- Insert raw nullifier entries one by one; `try_into().unwrap()` panics
at the first entry that is not 32 bytes, with the insertions made so far
still applied (returned in the `error` case). -/
def insertRawNullifiers (s : NullifierSet) :
    List (List Nat) → Except NullifierSet NullifierSet
  | [] => .ok s
  | n :: rest =>
    if n.length = 32 then insertRawNullifiers (s.insertNf n) rest
    else .error s

/-- Rust `AirdropWallet::import_data`: deserialize (a `none` blob models a
bincode parse failure), clear the in-memory core state, re-add every note
(which also rewrites its database record), then re-insert the nullifier
entries, panicking on any entry that is not 32 bytes. The metadata field
is never assigned. -/
def import_data (w : FullWallet) (blob : Option ExportData) (now : Nat) :
    ImportResult :=
  match blob with
  | none => .err w "Failed to deserialize import data"
  | some ed =>
    let cleared : CoreWallet :=
      { w.core_wallet with
        sapling_notes := [], orchard_notes := [],
        nullifier_set := NullifierSet.new,
        airdrop_nullifier_set := NullifierSet.new }
    let w1 := { w with core_wallet := cleared }
    let w2 := ed.sapling_notes.foldl
      (fun acc note => acc.add_sapling_note note now) w1
    let w3 := ed.orchard_notes.foldl
      (fun acc note => acc.add_orchard_note note now) w2
    match insertRawNullifiers w3.core_wallet.nullifier_set
        ed.nullifier_set with
    | .error s =>
      let core3 := { w3.core_wallet with nullifier_set := s }
      .panic { w3 with core_wallet := core3 }
    | .ok s1 =>
      let core4 := { w3.core_wallet with nullifier_set := s1 }
      let w4 := { w3 with core_wallet := core4 }
      match insertRawNullifiers w4.core_wallet.airdrop_nullifier_set
          ed.airdrop_nullifier_set with
      | .error s2 =>
        let core5 := { w4.core_wallet with airdrop_nullifier_set := s2 }
        .panic { w4 with core_wallet := core5 }
      | .ok s2 =>
        let core6 := { w4.core_wallet with airdrop_nullifier_set := s2 }
        .ok { w4 with core_wallet := core6 }

/-! ### Operation sequences over the persistent wallet (for the balance
accounting claim) -/

/-- A note-add or mark-spent operation, with its clock value. -/
inductive WalletOp where
  | addSapling (note : SaplingNote) (now : Nat)
  | addOrchard (note : OrchardNote) (now : Nat)
  | markSpent (note_type : String) (position : Nat) (now : Nat)
deriving DecidableEq, Repr

/-- Apply one operation (a failed mark leaves the wallet unchanged). -/
def applyOp (w : FullWallet) : WalletOp → FullWallet
  | .addSapling note now => w.add_sapling_note note now
  | .addOrchard note now => w.add_orchard_note note now
  | .markSpent t p now =>
    match mark_note_as_spent w t p now with
    | .ok w' => w'
    | .error _ => w

/-- Apply a sequence of operations. -/
def applyOps (w : FullWallet) (ops : List WalletOp) : FullWallet :=
  ops.foldl applyOp w

/-- Unspent-value total of a record collection, as the claim words it:
the plain sum of the values of the records whose spent flag is false. -/
def unspentSum {α : Type} (value : α → Nat) (is_sp : α → Bool)
    (recs : List (Nat × α)) : Nat :=
  ((recs.filter (fun p => !is_sp p.2)).map (fun p => value p.2)).sum

/-- Unspent Sapling total per the claim. -/
def unspentSumSapling (w : FullWallet) : Nat :=
  unspentSum (fun r => r.note.value) (fun r => r.is_spent)
    w.db.sapling_records

/-- Unspent Orchard total per the claim. -/
def unspentSumOrchard (w : FullWallet) : Nat :=
  unspentSum (fun r => r.note.value) (fun r => r.is_spent)
    w.db.orchard_records

/-- Detects an add-Sapling-note operation at position `p` (such an add
overwrites the stored record at `p`). -/
def opTouchesSapling (p : Nat) : WalletOp → Bool
  | .addSapling note _ => note.position == p
  | _ => false

/-! ### Concrete instances used by witnesses and counterexamples -/

/-- Sample wallet metadata. -/
def sampleMetadata : WalletMetadata := ⟨"wallet", 0, 0, "test", "0.1.0"⟩

/-- The Sapling note of the source's own test
(`test_sapling_airdrop_transaction`): value 1,000,000 at position 0. -/
def sampleSaplingNote : SaplingNote :=
  ⟨List.replicate 11 0, 1000000, List.replicate 32 1, List.replicate 32 2,
   List.replicate 32 3, 0⟩

/-- A core wallet holding just `sampleSaplingNote`. -/
def sampleWallet : CoreWallet :=
  ⟨[sampleSaplingNote], [], NullifierSet.new, NullifierSet.new⟩

/-- The claim statement `create_sapling_airdrop_tx` produces for
`sampleSaplingNote` in `sampleWallet`. -/
def sampleClaimS : ClaimStatementSapling :=
  { sapling_root := zeros32
    value_commitment := sampleSaplingNote.value_commitment
    airdrop_nullifier := sampleSaplingNote.nullifier
    randomized_key := zeros32
    nullifier_set := []
    proof := List.replicate 192 0 }

/-- The transaction `create_sapling_airdrop_tx sampleWallet 0 500000`
produces (recipient `[4; 32]`). -/
def sampleTxS : ShieldedAirdropTransaction :=
  { claim_description := .sapling sampleClaimS
    masp_mint_description :=
      { masp_root := zeros32
        value_commitment := zeros32
        recipient := List.replicate 32 4
        proof := List.replicate 192 0 }
    equivalence_description := some
      { sapling_value_commitment := sampleSaplingNote.value_commitment
        orchard_value_commitment := zeros32
        proof := List.replicate 192 0 }
    binding_signature := List.replicate 64 0 }

/-- The state of `sampleWallet` after accepting `sampleTxS`. -/
def sampleAcceptedWallet : CoreWallet :=
  { sampleWallet with
    airdrop_nullifier_set := ⟨[sampleSaplingNote.nullifier]⟩ }

/-- A transaction whose Sapling claim proof has the wrong length, so
validation rejects it. -/
def sampleBadTx : ShieldedAirdropTransaction :=
  { sampleTxS with
    claim_description := .sapling { sampleClaimS with proof := [] } }

/-- An equivalence statement with an invalid proof (length 0, not 192). -/
def c3BadEquiv : EquivalenceStatement := ⟨zeros32, zeros32, []⟩

/-- A valid Sapling claim transaction carrying an invalid equivalence
statement. -/
def c3SaplingTx : ShieldedAirdropTransaction :=
  { sampleTxS with equivalence_description := some c3BadEquiv }

/-- An Orchard claim statement with a valid (length 1024) proof and
all-zero value commitment. -/
def c3OrchardClaim : ClaimStatementOrchard :=
  { orchard_root := zeros32
    value_commitment := zeros32
    airdrop_nullifier := zeros32
    randomized_key := zeros32
    nullifier_set := []
    proof := List.replicate 1024 0 }

/-- An equivalence statement whose Sapling commitment matches the claim
but whose Orchard commitment (the claim's own pool) does not. -/
def c3MismatchEquiv : EquivalenceStatement :=
  ⟨zeros32, List.replicate 32 1, List.replicate 192 0⟩

/-- Orchard claim transaction with an own-pool commitment mismatch. -/
def c3OrchardTx : ShieldedAirdropTransaction :=
  { claim_description := .orchard c3OrchardClaim
    masp_mint_description := sampleTxS.masp_mint_description
    equivalence_description := some c3MismatchEquiv
    binding_signature := List.replicate 64 0 }

/-- An equivalence statement whose Sapling commitment differs from the
claim's, which the source's check does reject. -/
def c3RejectEquiv : EquivalenceStatement :=
  ⟨List.replicate 32 5, zeros32, List.replicate 192 0⟩

/-- Orchard claim transaction the validator rejects at the
equivalence-consistency step. -/
def c3RejectTx : ShieldedAirdropTransaction :=
  { c3OrchardTx with equivalence_description := some c3RejectEquiv }

/-- Two Sapling notes sharing nullifier key and randomness but sitting at
different positions. -/
def c4NoteA : SaplingNote :=
  ⟨List.replicate 11 0, 7, zeros32, List.replicate 32 2,
   List.replicate 32 3, 0⟩

/-- Same key material as `c4NoteA`, position 1. -/
def c4NoteB : SaplingNote :=
  ⟨List.replicate 11 0, 7, zeros32, List.replicate 32 2,
   List.replicate 32 3, 1⟩

/-- A database record for `sampleSaplingNote`, not yet spent. -/
def c2Record : SaplingNoteRecord := ⟨sampleSaplingNote, 10, false, none⟩

/-- A full wallet whose store holds the unspent `sampleSaplingNote`. -/
def c2Full : FullWallet :=
  ⟨⟨[(0, c2Record)], []⟩, sampleWallet, sampleMetadata⟩

/-- A full wallet whose single note record is marked spent. -/
def c5Wallet : FullWallet :=
  ⟨⟨[(0, ⟨sampleSaplingNote, 3, true, some 4⟩)], []⟩, sampleWallet,
   sampleMetadata⟩

/-- The wallet state after `import_data (export_data c5Wallet)` at time 7:
the record has been rewritten as unspent with fresh timestamps. -/
def c5After : FullWallet :=
  ⟨⟨[(0, ⟨sampleSaplingNote, 7, false, none⟩)], []⟩, sampleWallet,
   sampleMetadata⟩

/-- A parseable but internally inconsistent blob: one nullifier entry is
a single byte instead of 32. -/
def c6Blob : ExportData := ⟨sampleMetadata, [], [], [[0]], []⟩

/-- The state observable when `import_data c5Wallet (some c6Blob)`
panics: the core inventories are already cleared. -/
def c6After : FullWallet :=
  ⟨c5Wallet.db, ⟨[], [], ⟨[]⟩, ⟨[]⟩⟩, sampleMetadata⟩

/-- An empty persistent wallet. -/
def emptyFullWallet : FullWallet :=
  ⟨⟨[], []⟩, CoreWallet.new, sampleMetadata⟩

/-- A small Sapling note (value 5, position 0) for balance scenarios. -/
def c7Note : SaplingNote :=
  ⟨List.replicate 11 0, 5, zeros32, zeros32, zeros32, 0⟩

/-- Wallet after adding `c7Note`. -/
def c7W1 : FullWallet :=
  applyOps emptyFullWallet [.addSapling c7Note 1]

/-- Wallet after adding `c7Note` and marking it spent. -/
def c7W2 : FullWallet :=
  applyOps emptyFullWallet
    [.addSapling c7Note 1, .markSpent "sapling" 0 2]

/-- Wallet after additionally re-adding `c7Note` at the same position. -/
def c7W3 : FullWallet :=
  applyOps emptyFullWallet
    [.addSapling c7Note 1, .markSpent "sapling" 0 2,
     .addSapling c7Note 3]

/-- Database contents after rewriting each note of `notes` as a fresh
unspent record (what the `import_data` note loop does). -/
def freshRecordsS (notes : List SaplingNote) (now : Nat)
    (rs : List (Nat × SaplingNoteRecord)) :
    List (Nat × SaplingNoteRecord) :=
  notes.foldl
    (fun rs n => recordsInsert rs n.position ⟨n, now, false, none⟩) rs

/-- Orchard analogue of `freshRecordsS`. -/
def freshRecordsO (notes : List OrchardNote) (now : Nat)
    (rs : List (Nat × OrchardNoteRecord)) :
    List (Nat × OrchardNoteRecord) :=
  notes.foldl
    (fun rs n => recordsInsert rs n.position ⟨n, now, false, none⟩) rs

/-! ## Helper lemmas -/

theorem toBytesLE_length (n x : Nat) : (toBytesLE n x).length = n := by
  induction n generalizing x with
  | zero => rfl
  | succ k ih => simp [toBytesLE, ih]

theorem blakeCompress_length (h block : List Nat) (t : Nat) (f : Bool) :
    (blakeCompress h block t f).length = 8 := rfl

theorem blakeProcess_length (bs : List (List Nat)) :
    ∀ (h : List Nat) (done total : Nat), h.length = 8 →
      (blakeProcess h done total bs).length = 8 := by
  induction bs with
  | nil => intro h done total hh; simpa [blakeProcess] using hh
  | cons b rest ih =>
    intro h done total hh
    cases rest with
    | nil => simp [blakeProcess, blakeCompress_length]
    | cons b2 rest2 =>
      rw [blakeProcess]
      exact ih _ _ _ (blakeCompress_length _ _ _ _)

theorem blake2s256_length (personal msg : List Nat) :
    (blake2s256 personal msg).length = 32 := by
  have key : ∀ hf : List Nat, hf.length = 8 →
      (((hf.map (toBytesLE 4)).flatten).take 32).length = 32 := by
    intro hf hlen
    have hjoin : ((hf.map (toBytesLE 4)).flatten).length = 32 := by
      rw [List.length_flatten, List.map_map]
      have hc : (List.length ∘ toBytesLE 4) = fun _ : Nat => 4 :=
        funext fun x => toBytesLE_length 4 x
      rw [hc]
      simp [hlen, List.map_const']
    rw [List.length_take, hjoin]
    simp
  exact key _ (blakeProcess_length _ _ _ _ rfl)

theorem containsNf_insertNf_self (s : NullifierSet) (n : List Nat) :
    (s.insertNf n).containsNf n = true := by
  unfold NullifierSet.insertNf NullifierSet.containsNf
  by_cases h : n ∈ s.nullifiers
  · simp [h]
  · simp [h]

/-- A transaction whose airdrop nullifier is already registered is
rejected by `validate` whatever its proofs contain. -/
theorem validate_of_contains (tx : ShieldedAirdropTransaction)
    (s : NullifierSet)
    (h : s.containsNf (get_airdrop_nullifier tx) = true) :
    validate tx s = .ok false := by
  cases htx : tx.claim_description with
  | sapling c =>
    have hc : s.containsNf c.airdrop_nullifier = true := by
      simpa [get_airdrop_nullifier, htx] using h
    simp [validate, htx, verify_claim_sapling, hc]
  | orchard c =>
    have hc : s.containsNf c.airdrop_nullifier = true := by
      simpa [get_airdrop_nullifier, htx] using h
    simp [validate, htx, verify_claim_orchard, hc]

/-- Acceptance decomposed: `process_airdrop_transaction` returned
`Ok(true)` iff validation passed, and the new state differs only by the
inserted airdrop nullifier. -/
theorem process_ok_true_elim (w w' : CoreWallet)
    (tx : ShieldedAirdropTransaction)
    (hacc : process_airdrop_transaction w tx = .ok (true, w')) :
    validate tx w.airdrop_nullifier_set = .ok true ∧
      w' = { w with airdrop_nullifier_set :=
        w.airdrop_nullifier_set.insertNf (get_airdrop_nullifier tx) } := by
  cases hv : validate tx w.airdrop_nullifier_set with
  | error e => simp [process_airdrop_transaction, hv] at hacc
  | ok b =>
    cases b with
    | false => simp [process_airdrop_transaction, hv] at hacc
    | true =>
      simp only [process_airdrop_transaction, hv, Except.ok.injEq,
        Prod.mk.injEq, true_and] at hacc
      exact ⟨rfl, hacc.symm⟩

/-! ## Claim theorems -/

/-- C8: both airdrop-nullifier derivations are total (they always return
`Ok`) and deterministic, and the result is a 32-byte value. -/
theorem c8_derivation_total_deterministic :
    (∀ nk rho : List Nat, ∃ nf,
      derive_sapling_airdrop_nullifier nk rho = .ok nf ∧ nf.length = 32) ∧
    (∀ nk rho psi cm : List Nat, ∃ nf,
      derive_orchard_airdrop_nullifier nk rho psi cm = .ok nf ∧
        nf.length = 32) ∧
    (∀ nk rho nk' rho' : List Nat, nk = nk' → rho = rho' →
      derive_sapling_airdrop_nullifier nk rho =
        derive_sapling_airdrop_nullifier nk' rho') ∧
    (∀ nk rho psi cm nk' rho' psi' cm' : List Nat,
      nk = nk' → rho = rho' → psi = psi' → cm = cm' →
      derive_orchard_airdrop_nullifier nk rho psi cm =
        derive_orchard_airdrop_nullifier nk' rho' psi' cm') := by
  refine ⟨fun nk rho => ⟨_, rfl, blake2s256_length _ _⟩,
    fun nk rho psi cm => ⟨_, rfl, blake2s256_length _ _⟩,
    fun nk rho nk' rho' h1 h2 => by rw [h1, h2],
    fun nk rho psi cm nk' rho' psi' cm' h1 h2 h3 h4 => by
      rw [h1, h2, h3, h4]⟩

/-- Witness for C8 at concrete 32-byte inputs. -/
theorem c8_witness :
    (∃ nf, derive_sapling_airdrop_nullifier zeros32 zeros32 = .ok nf ∧
      nf.length = 32) ∧
    (∃ nf, derive_orchard_airdrop_nullifier zeros32 zeros32 zeros32
      zeros32 = .ok nf ∧ nf.length = 32) ∧
    derive_sapling_airdrop_nullifier zeros32 zeros32 =
      derive_sapling_airdrop_nullifier zeros32 zeros32 ∧
    derive_orchard_airdrop_nullifier zeros32 zeros32 zeros32 zeros32 =
      derive_orchard_airdrop_nullifier zeros32 zeros32 zeros32 zeros32 :=
  ⟨c8_derivation_total_deterministic.1 zeros32 zeros32,
   c8_derivation_total_deterministic.2.1 zeros32 zeros32 zeros32 zeros32,
   c8_derivation_total_deterministic.2.2.1 zeros32 zeros32 zeros32 zeros32
     rfl rfl,
   c8_derivation_total_deterministic.2.2.2 zeros32 zeros32 zeros32 zeros32
     zeros32 zeros32 zeros32 zeros32 rfl rfl rfl rfl⟩

/-- C4 counterexample: the nullifier recorded in a built claim statement
is not `derive_sapling_airdrop_nullifier(nk, randomness)` — two notes
with identical key material but different positions yield different
recorded nullifiers, while the derivation depends only on the key
material. -/
theorem c4_counterexample :
    ¬ (∀ (note : SaplingNote) (path : List (List Nat)) (s : NullifierSet)
        (amt : Nat) (r : List Nat),
        (create_sapling_to_masp_airdrop note path s amt r).map
          get_airdrop_nullifier =
        derive_sapling_airdrop_nullifier note.nullifier_key
          note.randomness) := by
  intro h
  have hA := h c4NoteA [] NullifierSet.new 0 zeros32
  have hB := h c4NoteB [] NullifierSet.new 0 zeros32
  have eA : derive_sapling_airdrop_nullifier c4NoteA.nullifier_key
      c4NoteA.randomness = .ok c4NoteA.nullifier := hA.symm
  have eB : derive_sapling_airdrop_nullifier c4NoteA.nullifier_key
      c4NoteA.randomness = .ok c4NoteB.nullifier := hB.symm
  have : c4NoteA.nullifier = c4NoteB.nullifier :=
    Except.ok.inj (eA.symm.trans eB)
  exact absurd this (by decide)

/-- C4 amended: the airdrop nullifier recorded inside a built claim
statement is the note's mock `nullifier()` (position in 8 little-endian
bytes, zero-padded to 32 bytes), for both pools. -/
theorem c4_claim_nullifier_is_note_mock :
    (∀ (note : SaplingNote) (path : List (List Nat)) (s : NullifierSet)
      (amt : Nat) (r : List Nat),
      (create_sapling_to_masp_airdrop note path s amt r).map
        get_airdrop_nullifier = .ok note.nullifier) ∧
    (∀ (note : OrchardNote) (path : List (List Nat)) (s : NullifierSet)
      (amt : Nat) (r : List Nat),
      (create_orchard_to_masp_airdrop note path s amt r).map
        get_airdrop_nullifier = .ok note.nullifier) :=
  ⟨fun _ _ _ _ _ => rfl, fun _ _ _ _ _ => rfl⟩

/-- C1: once `process_airdrop_transaction` accepts a transaction, any
subsequent validation of a transaction carrying the same airdrop
nullifier — in particular the accepted transaction itself — returns
`Ok(false)`. -/
theorem c1_accepted_nullifier_blocks_revalidation
    (w w' : CoreWallet) (tx tx' : ShieldedAirdropTransaction)
    (hacc : process_airdrop_transaction w tx = .ok (true, w'))
    (hnf : get_airdrop_nullifier tx' = get_airdrop_nullifier tx) :
    validate tx' w'.airdrop_nullifier_set = .ok false := by
  obtain ⟨-, rfl⟩ := process_ok_true_elim w w' tx hacc
  refine validate_of_contains _ _ ?_
  rw [hnf]
  exact containsNf_insertNf_self _ _

/-- Witness for C1: the source's own test scenario — accept the sample
transaction, then re-validate it against the updated registry. -/
theorem c1_witness :
    process_airdrop_transaction sampleWallet sampleTxS =
      .ok (true, sampleAcceptedWallet) ∧
    validate sampleTxS sampleAcceptedWallet.airdrop_nullifier_set =
      .ok false :=
  ⟨by decide,
   c1_accepted_nullifier_blocks_revalidation sampleWallet
     sampleAcceptedWallet sampleTxS sampleTxS (by decide) rfl⟩

/-- C9: a rejected transaction (`Ok(false)`) leaves the core wallet —
both nullifier sets and both note inventories — exactly unchanged. -/
theorem c9_rejection_leaves_state_unchanged
    (w w' : CoreWallet) (tx : ShieldedAirdropTransaction)
    (hrej : process_airdrop_transaction w tx = .ok (false, w')) :
    w' = w := by
  cases hv : validate tx w.airdrop_nullifier_set with
  | error e => simp [process_airdrop_transaction, hv] at hrej
  | ok b =>
    cases b with
    | false =>
      simp only [process_airdrop_transaction, hv, Except.ok.injEq,
        Prod.mk.injEq, true_and] at hrej
      exact hrej.symm
    | true => simp [process_airdrop_transaction, hv] at hrej

/-- Witness for C9: a transaction with a malformed claim proof is
rejected and the wallet is unchanged. -/
theorem c9_witness :
    process_airdrop_transaction sampleWallet sampleBadTx =
      .ok (false, sampleWallet) ∧ sampleWallet = sampleWallet :=
  ⟨by decide,
   c9_rejection_leaves_state_unchanged sampleWallet sampleWallet
     sampleBadTx (by decide)⟩

/-- C10: eligibility search and transaction construction never consult
spent status or the airdrop registry: `find_eligible_notes` returns
exactly the notes with sufficient value, both are unchanged when the
airdrop nullifier registry is replaced arbitrarily, and construction
succeeds exactly when the index is in range. -/
theorem c10_construction_ignores_claim_status :
    (∀ (w : CoreWallet) (mv : Nat) (note : SaplingNote),
      note ∈ (find_eligible_notes w mv).1 ↔
        note ∈ w.sapling_notes ∧ mv ≤ note.value) ∧
    (∀ (w : CoreWallet) (mv : Nat) (note : OrchardNote),
      note ∈ (find_eligible_notes w mv).2 ↔
        note ∈ w.orchard_notes ∧ mv ≤ note.value) ∧
    (∀ (w : CoreWallet) (s : NullifierSet) (mv : Nat),
      find_eligible_notes { w with airdrop_nullifier_set := s } mv =
        find_eligible_notes w mv) ∧
    (∀ (w : CoreWallet) (s : NullifierSet) (i amt : Nat) (r : List Nat),
      create_sapling_airdrop_tx { w with airdrop_nullifier_set := s }
        i amt r = create_sapling_airdrop_tx w i amt r) ∧
    (∀ (w : CoreWallet) (s : NullifierSet) (i amt : Nat) (r : List Nat),
      create_orchard_airdrop_tx { w with airdrop_nullifier_set := s }
        i amt r = create_orchard_airdrop_tx w i amt r) ∧
    (∀ (w : CoreWallet) (i amt : Nat) (r : List Nat),
      i < w.sapling_notes.length →
      ∃ tx, create_sapling_airdrop_tx w i amt r = .ok tx) ∧
    (∀ (w : CoreWallet) (i amt : Nat) (r : List Nat),
      i < w.orchard_notes.length →
      ∃ tx, create_orchard_airdrop_tx w i amt r = .ok tx) := by
  refine ⟨?_, ?_, ?_, ?_, ?_, ?_, ?_⟩
  · intro w mv note
    simp [find_eligible_notes, List.mem_filter]
  · intro w mv note
    simp [find_eligible_notes, List.mem_filter]
  · intro w s mv; rfl
  · intro w s i amt r; rfl
  · intro w s i amt r; rfl
  · intro w i amt r h
    have hstep : create_sapling_airdrop_tx w i amt r =
        create_sapling_to_masp_airdrop (w.sapling_notes.get ⟨i, h⟩)
          (List.replicate 32 zeros32) w.nullifier_set amt
          (recipientKeyOf r) := by
      unfold create_sapling_airdrop_tx
      rw [dif_pos h]
    rw [hstep]
    exact ⟨_, rfl⟩
  · intro w i amt r h
    have hstep : create_orchard_airdrop_tx w i amt r =
        create_orchard_to_masp_airdrop (w.orchard_notes.get ⟨i, h⟩)
          (List.replicate 32 zeros32) w.nullifier_set amt
          (recipientKeyOf r) := by
      unfold create_orchard_airdrop_tx
      rw [dif_pos h]
    rw [hstep]
    exact ⟨_, rfl⟩

/-- Witness for C10: the sample note stays eligible and constructible in
a wallet whose airdrop registry already contains its nullifier. -/
theorem c10_witness :
    sampleSaplingNote ∈ (find_eligible_notes sampleAcceptedWallet 5).1 ∧
    (∃ tx, create_sapling_airdrop_tx sampleAcceptedWallet 0 5
      (List.replicate 32 4) = .ok tx) :=
  ⟨(c10_construction_ignores_claim_status.1 sampleAcceptedWallet 5
      sampleSaplingNote).mpr ⟨by decide, by decide⟩,
   c10_construction_ignores_claim_status.2.2.2.2.2.1
     sampleAcceptedWallet 0 5 (List.replicate 32 4) (by decide)⟩

/-- C3 counterexample: a Sapling claim transaction carrying an invalid
equivalence statement still validates (`Ok(true)`), and an Orchard claim
transaction whose equivalence statement disagrees with the claim's
own-pool (Orchard) commitment also validates, because the source only
checks the Orchard branch and compares the Sapling side. -/
theorem c3_counterexample :
    c3SaplingTx.equivalence_description = some c3BadEquiv ∧
    verify_equivalence c3BadEquiv = .ok false ∧
    validate c3SaplingTx NullifierSet.new = .ok true ∧
    c3OrchardTx.claim_description = .orchard c3OrchardClaim ∧
    c3OrchardTx.equivalence_description = some c3MismatchEquiv ∧
    c3MismatchEquiv.orchard_value_commitment ≠
      c3OrchardClaim.value_commitment ∧
    validate c3OrchardTx NullifierSet.new = .ok true := by
  refine ⟨rfl, by decide, by decide, rfl, rfl, by decide, by decide⟩

/-- C3 amended: only Orchard-variant claims have their equivalence
statement checked — the proof must verify and the statement's *Sapling*
value commitment (not the claim's own pool) must equal the claim's value
commitment; Sapling-variant claims never examine the equivalence
statement. -/
theorem c3_equivalence_check_orchard_only :
    (∀ (tx : ShieldedAirdropTransaction) (s : NullifierSet)
      (claim : ClaimStatementOrchard) (equiv : EquivalenceStatement),
      tx.claim_description = .orchard claim →
      tx.equivalence_description = some equiv →
      (verify_equivalence equiv = .ok false ∨
        equiv.sapling_value_commitment ≠ claim.value_commitment) →
      validate tx s = .ok false) ∧
    (∀ (tx : ShieldedAirdropTransaction) (s : NullifierSet)
      (claim : ClaimStatementSapling)
      (e : Option EquivalenceStatement),
      tx.claim_description = .sapling claim →
      validate tx s =
        validate { tx with equivalence_description := e } s) := by
  constructor
  · intro tx s claim equiv htx heq hbad
    simp only [validate, htx, heq, verify_claim_orchard,
      verify_equivalence]
    by_cases h1 : claim.proof.length = 1024
    · simp only [h1, beq_self_eq_true, Bool.not_true, Bool.false_eq_true,
        if_false]
      by_cases h2 : s.containsNf claim.airdrop_nullifier
      · simp [h2]
      · simp only [Bool.not_eq_true] at h2
        simp only [h2, Bool.false_eq_true, if_false]
        rcases hbad with hb | hb
        · have hlen : ¬ equiv.proof.length = 192 := by
            simpa [verify_equivalence] using hb
          simp [hlen]
        · by_cases h3 : equiv.proof.length = 192
          · simp [h3, hb]
          · simp [h3]
    · simp [h1]
  · intro tx s claim e htx
    simp [validate, htx]

/-- Witness for C3 amended: a mismatching-Sapling-commitment equivalence
statement is rejected, and dropping a Sapling claim's equivalence
statement does not change the verdict. -/
theorem c3_witness :
    validate c3RejectTx NullifierSet.new = .ok false ∧
    validate c3SaplingTx NullifierSet.new =
      validate { c3SaplingTx with equivalence_description := none }
        NullifierSet.new :=
  ⟨c3_equivalence_check_orchard_only.1 c3RejectTx NullifierSet.new
     c3OrchardClaim c3RejectEquiv rfl rfl (Or.inr (by decide)),
   c3_equivalence_check_orchard_only.2 c3SaplingTx NullifierSet.new
     sampleClaimS none rfl⟩

/-- C2: evaluated at the failing input — the wallet accepts a claim
transaction built from its stored note; the airdrop nullifier is
inserted into the registry, yet the note's database record (the only
one) still has `is_spent = false`, because `process_airdrop_transaction`
never calls `mark_note_as_spent`. The mixed state the spec forbids is
observable. -/
theorem c2_acceptance_never_marks_note_spent :
    create_sapling_airdrop_tx c2Full.core_wallet 0 500000
      (List.replicate 32 4) = .ok sampleTxS ∧
    process_airdrop_transaction c2Full.core_wallet sampleTxS =
      .ok (true, sampleAcceptedWallet) ∧
    sampleAcceptedWallet.airdrop_nullifier_set.containsNf
      (get_airdrop_nullifier sampleTxS) = true ∧
    recordsLookup c2Full.db.sapling_records 0 = some c2Record ∧
    c2Record.is_spent = false :=
  ⟨by decide, by decide, by decide, by decide, rfl⟩

/-- C6 counterexample: a parseable blob with a 1-byte nullifier entry
makes `import_data` panic (the `try_into().unwrap()`), not return an
error, and the state observable at the panic has already lost the note
inventory — partial mutation. -/
theorem c6_counterexample :
    import_data c5Wallet (some c6Blob) 7 = .panic c6After ∧
    c6After.core_wallet.sapling_notes = [] ∧
    c5Wallet.core_wallet.sapling_notes ≠ [] ∧
    c6After ≠ c5Wallet := by
  refine ⟨by decide, rfl, by decide, by decide⟩

/-- C6 amended: a blob that fails to parse makes `import_data` return an
error with the wallet untouched, and every error return carries the
unchanged prior state; an internally inconsistent blob, however, panics
after partial mutation rather than returning an error. -/
theorem c6_failed_parse_leaves_state_untouched :
    (∀ (w : FullWallet) (now : Nat),
      import_data w none now =
        .err w "Failed to deserialize import data") ∧
    (∀ (w w' : FullWallet) (blob : Option ExportData) (now : Nat)
      (msg : String), import_data w blob now = .err w' msg → w' = w) := by
  constructor
  · intro w now; rfl
  · intro w w' blob now msg h
    cases blob with
    | none =>
      simp only [import_data, ImportResult.err.injEq] at h
      exact h.1.symm
    | some ed =>
      simp only [import_data] at h
      split at h
      · exact ImportResult.noConfusion h
      · split at h
        · exact ImportResult.noConfusion h
        · exact ImportResult.noConfusion h

/-- Witness for C6 amended at a concrete wallet. -/
theorem c6_witness :
    import_data c5Wallet none 7 =
      .err c5Wallet "Failed to deserialize import data" ∧
    c5Wallet = c5Wallet :=
  ⟨c6_failed_parse_leaves_state_untouched.1 c5Wallet 7,
   c6_failed_parse_leaves_state_untouched.2 c5Wallet c5Wallet none 7
     "Failed to deserialize import data"
     (c6_failed_parse_leaves_state_untouched.1 c5Wallet 7)⟩

/-! ### Record-store lemmas (for the balance and round-trip claims) -/

theorem recordsLookup_insert_self {α : Type} (l : List (Nat × α))
    (k : Nat) (v : α) : recordsLookup (recordsInsert l k v) k = some v := by
  induction l with
  | nil => simp [recordsInsert, recordsLookup]
  | cons p rest ih =>
    by_cases h : p.1 = k
    · simp [recordsInsert, h, recordsLookup]
    · simp [recordsInsert, h, recordsLookup, ih]

theorem recordsLookup_insert_other {α : Type} (l : List (Nat × α))
    (k k' : Nat) (v : α) (h : k ≠ k') :
    recordsLookup (recordsInsert l k v) k' = recordsLookup l k' := by
  induction l with
  | nil => simp [recordsInsert, recordsLookup, h]
  | cons p rest ih =>
    by_cases hp : p.1 = k
    · subst hp
      simp [recordsInsert, recordsLookup, h, Ne.symm h]
    · simp [recordsInsert, hp, recordsLookup, ih]

theorem foldl_balance_eq {α : Type} (value : α → Nat) (is_sp : α → Bool) :
    ∀ (recs : List (Nat × α)) (acc : Nat),
      acc + unspentSum value is_sp recs < 2 ^ 64 →
      recs.foldl
        (fun a p => if is_sp p.2 then a else (a + value p.2) % 2 ^ 64)
        acc = acc + unspentSum value is_sp recs := by
  intro recs
  induction recs with
  | nil => intro acc h; simp [unspentSum]
  | cons p rest ih =>
    intro acc h
    by_cases hsp : is_sp p.2 = true
    · have hsum : unspentSum value is_sp (p :: rest) =
          unspentSum value is_sp rest := by
        simp [unspentSum, List.filter_cons, hsp]
      rw [hsum] at h ⊢
      rw [List.foldl_cons, hsp, if_pos rfl]
      exact ih acc h
    · have hspf : is_sp p.2 = false := by simpa using hsp
      have hsum : unspentSum value is_sp (p :: rest) =
          value p.2 + unspentSum value is_sp rest := by
        simp [unspentSum, List.filter_cons, hspf]
      rw [hsum] at h ⊢
      rw [List.foldl_cons, hspf, if_neg (by simp)]
      have hmod : (acc + value p.2) % 2 ^ 64 = acc + value p.2 :=
        Nat.mod_eq_of_lt (by omega)
      rw [hmod, ih (acc + value p.2) (by omega)]
      omega

/-- Applying one operation that is not an add-Sapling at position `p`
preserves "the record at `p` exists and is spent". -/
theorem applyOp_preserves_spent (p : Nat) (w : FullWallet) (op : WalletOp)
    (hop : opTouchesSapling p op = false)
    (h : ∃ r, recordsLookup w.db.sapling_records p = some r ∧
      r.is_spent = true) :
    ∃ r, recordsLookup (applyOp w op).db.sapling_records p = some r ∧
      r.is_spent = true := by
  obtain ⟨r, hr, hsp⟩ := h
  cases op with
  | addSapling note tnow =>
    have hne : note.position ≠ p := by
      simpa [opTouchesSapling] using hop
    refine ⟨r, ?_, hsp⟩
    show recordsLookup
      (recordsInsert w.db.sapling_records note.position
        ⟨note, tnow, false, none⟩) p = some r
    rw [recordsLookup_insert_other _ _ _ _ hne]
    exact hr
  | addOrchard note tnow => exact ⟨r, hr, hsp⟩
  | markSpent t p' tnow =>
    have key : ∀ w' : FullWallet, mark_note_as_spent w t p' tnow = .ok w' →
        ∃ r', recordsLookup w'.db.sapling_records p = some r' ∧
          r'.is_spent = true := by
      intro w' hm
      unfold mark_note_as_spent at hm
      by_cases ht : t = "sapling"
      · simp only [ht, if_true, if_pos rfl] at hm
        cases hlk : recordsLookup w.db.sapling_records p' with
        | none => rw [hlk] at hm; exact Except.noConfusion hm
        | some r0 =>
          rw [hlk] at hm
          have hw' := (Except.ok.inj hm).symm
          subst hw'
          by_cases hpp : p' = p
          · subst hpp
            exact ⟨_, recordsLookup_insert_self _ _ _, rfl⟩
          · refine ⟨r, ?_, hsp⟩
            show recordsLookup
              (recordsInsert w.db.sapling_records p' _) p = some r
            rw [recordsLookup_insert_other _ _ _ _ hpp]
            exact hr
      · by_cases ht2 : t = "orchard"
        · simp only [ht, ht2, if_false, if_true, if_pos rfl] at hm
          cases hlk : recordsLookup w.db.orchard_records p' with
          | none => rw [hlk] at hm; exact Except.noConfusion hm
          | some r0 =>
            rw [hlk] at hm
            have hw' := (Except.ok.inj hm).symm
            subst hw'
            exact ⟨r, hr, hsp⟩
        · simp only [ht, ht2, if_false] at hm
          exact Except.noConfusion hm
    have happ : applyOp w (.markSpent t p' tnow) =
        match mark_note_as_spent w t p' tnow with
        | .ok w' => w'
        | .error _ => w := rfl
    rw [happ]
    cases hm : mark_note_as_spent w t p' tnow with
    | error e => exact ⟨r, hr, hsp⟩
    | ok w' => exact key w' hm

/-- Iterated form of `applyOp_preserves_spent`. -/
theorem applyOps_preserves_spent (p : Nat) (ops : List WalletOp) :
    ∀ w : FullWallet, (∀ op ∈ ops, opTouchesSapling p op = false) →
    (∃ r, recordsLookup w.db.sapling_records p = some r ∧
      r.is_spent = true) →
    ∃ r, recordsLookup (applyOps w ops).db.sapling_records p = some r ∧
      r.is_spent = true := by
  induction ops with
  | nil => intro w _ h; exact h
  | cons op rest ih =>
    intro w hops h
    have h1 := applyOp_preserves_spent p w op (hops op (by simp)) h
    exact ih (applyOp w op) (fun o ho => hops o (by simp [ho])) h1

/-- C7 counterexample: add a note, mark it spent (balance drops to 0),
then add the same note again — the position-keyed record store
overwrites the spent record with a fresh unspent one and the value
re-enters the unspent total, so "excluded from that point on" fails. -/
theorem c7_counterexample :
    get_balance c7W2 = (0, 0) ∧
    get_balance c7W3 = (5, 0) ∧
    recordsLookup c7W2.db.sapling_records 0 =
      some ⟨c7Note, 1, true, some 2⟩ ∧
    recordsLookup c7W3.db.sapling_records 0 =
      some ⟨c7Note, 3, false, none⟩ := by
  refine ⟨by decide, by decide, by decide, by decide⟩

/-- C7 amended: `get_balance` returns, per pool, exactly the sum of the
values of the unspent records (whenever that sum fits in a `u64`), and a
record marked spent stays excluded as long as no later add reuses its
position (a later add with the same position overwrites the record with
a fresh unspent one). -/
theorem c7_balance_accounting :
    (∀ w : FullWallet, unspentSumSapling w < 2 ^ 64 →
      unspentSumOrchard w < 2 ^ 64 →
      get_balance w = (unspentSumSapling w, unspentSumOrchard w)) ∧
    (∀ (w w1 : FullWallet) (p now : Nat) (ops : List WalletOp),
      mark_note_as_spent w "sapling" p now = .ok w1 →
      (∀ op ∈ ops, opTouchesSapling p op = false) →
      ∃ r : SaplingNoteRecord,
        recordsLookup (applyOps w1 ops).db.sapling_records p = some r ∧
          r.is_spent = true) := by
  constructor
  · intro w h1 h2
    unfold get_balance unspentSumSapling unspentSumOrchard
    rw [Prod.mk.injEq]
    constructor
    · simpa using foldl_balance_eq
        (fun r : SaplingNoteRecord => r.note.value) (fun r => r.is_spent)
        w.db.sapling_records 0 (by simpa [unspentSumSapling] using h1)
    · simpa using foldl_balance_eq
        (fun r : OrchardNoteRecord => r.note.value) (fun r => r.is_spent)
        w.db.orchard_records 0 (by simpa [unspentSumOrchard] using h2)
  · intro w w1 p now ops hmark hops
    have hbase : ∃ r, recordsLookup w1.db.sapling_records p = some r ∧
        r.is_spent = true := by
      unfold mark_note_as_spent at hmark
      simp only [if_pos rfl] at hmark
      cases hlk : recordsLookup w.db.sapling_records p with
      | none => rw [hlk] at hmark; exact Except.noConfusion hmark
      | some r0 =>
        rw [hlk] at hmark
        have hw1 := (Except.ok.inj hmark).symm
        subst hw1
        exact ⟨_, recordsLookup_insert_self _ _ _, rfl⟩
    exact applyOps_preserves_spent p ops w1 hops hbase

/-- Witness for C7 amended: the balance identity at the concrete wallet
of the counterexample scenario, and spent-persistence across an
unrelated operation. -/
theorem c7_witness :
    get_balance c7W3 = (unspentSumSapling c7W3, unspentSumOrchard c7W3) ∧
    (∃ r, recordsLookup
        (applyOps c7W2
          [WalletOp.markSpent "orchard" 0 9]).db.sapling_records 0 =
        some r ∧ r.is_spent = true) :=
  ⟨c7_balance_accounting.1 c7W3 (by decide) (by decide),
   c7_balance_accounting.2 c7W1 c7W2 0 2
     [WalletOp.markSpent "orchard" 0 9] (by decide) (by decide)⟩

/-! ### Round-trip lemmas (for the export/import claim) -/

theorem foldl_add_sapling (notes : List SaplingNote) :
    ∀ (w : FullWallet) (now : Nat),
    notes.foldl (fun acc n => acc.add_sapling_note n now) w =
      { db :=
          { sapling_records :=
              freshRecordsS notes now w.db.sapling_records
            orchard_records := w.db.orchard_records }
        core_wallet :=
          { w.core_wallet with
            sapling_notes := w.core_wallet.sapling_notes ++ notes }
        metadata := w.metadata } := by
  induction notes with
  | nil => intro w now; simp [freshRecordsS]
  | cons n rest ih =>
    intro w now
    rw [List.foldl_cons, ih]
    simp [FullWallet.add_sapling_note, CoreWallet.add_sapling_note,
      freshRecordsS]

theorem foldl_add_orchard (notes : List OrchardNote) :
    ∀ (w : FullWallet) (now : Nat),
    notes.foldl (fun acc n => acc.add_orchard_note n now) w =
      { db :=
          { sapling_records := w.db.sapling_records
            orchard_records :=
              freshRecordsO notes now w.db.orchard_records }
        core_wallet :=
          { w.core_wallet with
            orchard_notes := w.core_wallet.orchard_notes ++ notes }
        metadata := w.metadata } := by
  induction notes with
  | nil => intro w now; simp [freshRecordsO]
  | cons n rest ih =>
    intro w now
    rw [List.foldl_cons, ih]
    simp [FullWallet.add_orchard_note, CoreWallet.add_orchard_note,
      freshRecordsO]

theorem insertRaw_ok_of_all32 (l : List (List Nat)) :
    ∀ s : NullifierSet, (∀ n ∈ l, n.length = 32) →
      insertRawNullifiers s l = .ok (l.foldl NullifierSet.insertNf s) := by
  induction l with
  | nil => intro s _; rfl
  | cons n rest ih =>
    intro s h
    have h32 : n.length = 32 := h n (by simp)
    show (if n.length = 32 then insertRawNullifiers (s.insertNf n) rest
      else .error s) = _
    rw [if_pos h32, List.foldl_cons]
    exact ih _ (fun x hx => h x (by simp [hx]))

theorem foldl_insertNf_restore (l : List (List Nat)) :
    ∀ s : NullifierSet, l.Nodup → (∀ x ∈ l, x ∉ s.nullifiers) →
      l.foldl NullifierSet.insertNf s = ⟨s.nullifiers ++ l⟩ := by
  induction l with
  | nil => intro s _ _; cases s; simp
  | cons n rest ih =>
    intro s hnd hdisj
    rw [List.foldl_cons]
    have hn : n ∉ s.nullifiers := hdisj n (by simp)
    have hins : s.insertNf n = ⟨s.nullifiers ++ [n]⟩ := by
      simp [NullifierSet.insertNf, hn]
    rw [hins, ih ⟨s.nullifiers ++ [n]⟩ (List.nodup_cons.mp hnd).2 ?_]
    · simp
    · intro x hx hmem
      rcases List.mem_append.mp hmem with hxs | hxn
      · exact hdisj x (by simp [hx]) hxs
      · have hxeq : x = n := by simpa using hxn
        subst hxeq
        exact (List.nodup_cons.mp hnd).1 hx

theorem lookup_foldl_not_mem {α β : Type} (key : β → Nat) (mk : β → α)
    (notes : List β) :
    ∀ (k : Nat) (rs : List (Nat × α)), k ∉ notes.map key →
      recordsLookup
        (notes.foldl (fun rs n => recordsInsert rs (key n) (mk n)) rs) k =
      recordsLookup rs k := by
  induction notes with
  | nil => intro k rs _; rfl
  | cons n rest ih =>
    intro k rs h
    have h1 : ¬ k = key n ∧ k ∉ rest.map key := by simpa using h
    rw [List.foldl_cons, ih k _ h1.2,
      recordsLookup_insert_other _ _ _ _ (fun he => h1.1 he.symm)]

theorem lookup_foldl_fresh {α β : Type} (key : β → Nat) (mk : β → α)
    (notes : List β) :
    ∀ (b : β) (rs : List (Nat × α)), (notes.map key).Nodup →
      b ∈ notes →
      recordsLookup
        (notes.foldl (fun rs n => recordsInsert rs (key n) (mk n)) rs)
        (key b) = some (mk b) := by
  induction notes with
  | nil => intro b rs _ hb; exact absurd hb (by simp)
  | cons n rest ih =>
    intro b rs hnd hb
    rw [List.map_cons] at hnd
    rw [List.foldl_cons]
    rcases List.mem_cons.mp hb with rfl | hbr
    · have hnot : key b ∉ rest.map key := (List.nodup_cons.mp hnd).1
      rw [lookup_foldl_not_mem key mk rest (key b) _ hnot,
        recordsLookup_insert_self]
    · exact ih b _ (List.nodup_cons.mp hnd).2 hbr

/-- Characterization of `import_data (export_data w)`: the core wallet
and metadata come back, and every exported note's record is rewritten
fresh on top of the prior record store. -/
theorem import_export_eq (w : FullWallet) (now : Nat)
    (h1 : ∀ n ∈ w.core_wallet.nullifier_set.nullifiers, n.length = 32)
    (h2 : ∀ n ∈ w.core_wallet.airdrop_nullifier_set.nullifiers,
      n.length = 32)
    (h3 : w.core_wallet.nullifier_set.nullifiers.Nodup)
    (h4 : w.core_wallet.airdrop_nullifier_set.nullifiers.Nodup) :
    import_data w (some (export_data w)) now = .ok
      { db :=
          { sapling_records :=
              freshRecordsS w.core_wallet.sapling_notes now
                w.db.sapling_records
            orchard_records :=
              freshRecordsO w.core_wallet.orchard_notes now
                w.db.orchard_records }
        core_wallet := w.core_wallet
        metadata := w.metadata } := by
  simp only [import_data, export_data]
  rw [foldl_add_sapling, foldl_add_orchard]
  rw [insertRaw_ok_of_all32 _ _ h1,
    foldl_insertNf_restore _ _ h3 (by simp [NullifierSet.new])]
  rw [insertRaw_ok_of_all32 _ _ h2,
    foldl_insertNf_restore _ _ h4 (by simp [NullifierSet.new])]
  simp only [List.nil_append]
  rfl

/-- C5 counterexample: a wallet whose single note record is marked spent
is not restored field-for-field by `import(export())` — the record comes
back unspent with fresh timestamps, so the post-import state differs
from the pre-export state. -/
theorem c5_counterexample :
    import_data c5Wallet (some (export_data c5Wallet)) 7 = .ok c5After ∧
    recordsLookup c5Wallet.db.sapling_records 0 =
      some ⟨sampleSaplingNote, 3, true, some 4⟩ ∧
    recordsLookup c5After.db.sapling_records 0 =
      some ⟨sampleSaplingNote, 7, false, none⟩ ∧
    c5After ≠ c5Wallet := by
  refine ⟨by decide, by decide, by decide, by decide⟩

/-- C5 amended: `import(export())` restores the core note inventories,
both nullifier sets and the metadata exactly, but the per-note database
records are rewritten as fresh unspent records (spent flags and
timestamps are not round-tripped). -/
theorem c5_roundtrip_restores_core_state (w : FullWallet) (now : Nat)
    (h1 : ∀ n ∈ w.core_wallet.nullifier_set.nullifiers, n.length = 32)
    (h2 : ∀ n ∈ w.core_wallet.airdrop_nullifier_set.nullifiers,
      n.length = 32)
    (h3 : w.core_wallet.nullifier_set.nullifiers.Nodup)
    (h4 : w.core_wallet.airdrop_nullifier_set.nullifiers.Nodup)
    (h5 : (w.core_wallet.sapling_notes.map SaplingNote.position).Nodup)
    (h6 : (w.core_wallet.orchard_notes.map OrchardNote.position).Nodup) :
    ∃ w', import_data w (some (export_data w)) now = .ok w' ∧
      w'.core_wallet = w.core_wallet ∧
      w'.metadata = w.metadata ∧
      (∀ note ∈ w.core_wallet.sapling_notes,
        recordsLookup w'.db.sapling_records note.position =
          some ⟨note, now, false, none⟩) ∧
      (∀ note ∈ w.core_wallet.orchard_notes,
        recordsLookup w'.db.orchard_records note.position =
          some ⟨note, now, false, none⟩) := by
  refine ⟨_, import_export_eq w now h1 h2 h3 h4, rfl, rfl, ?_, ?_⟩
  · intro note hmem
    exact lookup_foldl_fresh SaplingNote.position
      (fun n => ⟨n, now, false, none⟩) w.core_wallet.sapling_notes note
      w.db.sapling_records h5 hmem
  · intro note hmem
    exact lookup_foldl_fresh OrchardNote.position
      (fun n => ⟨n, now, false, none⟩) w.core_wallet.orchard_notes note
      w.db.orchard_records h6 hmem

/-- Witness for C5 amended at the concrete wallet of the
counterexample. -/
theorem c5_witness :
    ∃ w', import_data c5Wallet (some (export_data c5Wallet)) 7 =
        .ok w' ∧
      w'.core_wallet = c5Wallet.core_wallet ∧
      w'.metadata = c5Wallet.metadata ∧
      (∀ note ∈ c5Wallet.core_wallet.sapling_notes,
        recordsLookup w'.db.sapling_records note.position =
          some ⟨note, 7, false, none⟩) ∧
      (∀ note ∈ c5Wallet.core_wallet.orchard_notes,
        recordsLookup w'.db.orchard_records note.position =
          some ⟨note, 7, false, none⟩) :=
  c5_roundtrip_restores_core_state c5Wallet 7 (by decide) (by decide)
    (by decide) (by decide) (by decide) (by decide)

end ZecNamada
